import Mathlib

/-
Verification of the PostgreSQL DataLoader repository.

The database adapter (src/postgresql_dataloader.py) is embedded shallowly:
the external PostgreSQL store is modelled as an association list of tables,
each operation is a pure function from the store (plus oracles for the
outcomes of the external world: whether a connection can be established,
whether executing an insert page raises) to a result, the new durable store
(statements are committed only where the source calls `conn.commit()`, and
`conn.rollback()` restores the store passed in), the list of SQL statements
issued to the store, and the list of messages printed.

The anonymizer (src/shortanonymize.py) is embedded over byte sequences
(lists of naturals below 256); the AES block cipher supplied by the external
pycryptodome library is a parameter (an arbitrary keyed block permutation),
while the CBC chaining, PKCS#7 padding and Base64URL coding implemented or
composed by the source are modelled in full.
-/

namespace PgLoader

/-- Cell values stored in tables and DataFrames; their concrete type is
irrelevant to the adapter, which never inspects them. -/
abbrev Val := Int

/-- A live table in the external store: ordered column (name, SQL type
definition) pairs and the committed rows. -/
structure Table where
  cols : List (String × String)
  rows : List (List Val)
deriving DecidableEq, Repr

/-- The external store: tables keyed by name. -/
abbrev DB := List (String × Table)

/-- Ordered column names of a table, as returned by the
information_schema.columns query ordered by ordinal_position. -/
def Table.colNames (t : Table) : List String := t.cols.map Prod.fst

def lookupTable : DB → String → Option Table
  | [], _ => none
  | (n, u) :: rest, name => if n = name then some u else lookupTable rest name

def setTable : DB → String → Table → DB
  | [], name, u => [(name, u)]
  | (n, v) :: rest, name, u =>
    if n = name then (name, u) :: rest else (n, v) :: setTable rest name u

def removeTable (db : DB) (t : String) : DB :=
  db.filter (fun e => decide (e.1 ≠ t))

/-- A pandas DataFrame: ordered (column name, dtype string) pairs and rows
aligned with the column order. -/
structure DataFrame where
  cols : List (String × String)
  rows : List (List Val)
deriving DecidableEq, Repr

def DataFrame.colNames (df : DataFrame) : List String := df.cols.map Prod.fst

/-- pandas `df.empty`: true when either axis has length 0. -/
def DataFrame.isEmpty (df : DataFrame) : Bool :=
  df.rows.isEmpty || df.cols.isEmpty

/-- Faults raised by the external store or driver inside an operation. -/
inductive PgErr
  | connectionError
  | duplicateTable
  | undefinedTable
  | pageError
deriving DecidableEq, Repr

/-- SQL statements issued against the external store, in issue order. -/
inductive Stmt
  | queryTableExists (t : String)
  | queryColumns (t : String)
  | queryAllTables
  | queryCount (t : String)
  | execSql (q : String)
  | createTable (t : String) (ifNotExists : Bool) (cols : List (String × String))
  | dropTable (t : String) (cascade : Bool)
  | truncateTable (t : String) (restartIdentity : Bool)
  | insertPage (t : String) (cols : List String) (vals : List (List Val))
deriving DecidableEq, Repr

/-- Messages printed by the adapter (modelled structurally, with the data
each printed line interpolates). -/
inductive Msg
  | warnEmptyDataFrame
  | errTableNameEmpty
  | errConnectionFailed
  | errCaught (e : PgErr)
  | errTableExists (t : String)
  | errTableNotFound (t : String)
  | errMissingColumns (missing required provided : List String)
  | infoCreatingTable (t : String)
  | okTableCreated (t : String)
  | infoInserting (n : Nat) (t : String)
  | okInserted (n : Nat)
  | infoDropping (t : String)
  | okDropped (t : String)
  | infoTruncating (t : String)
  | okTruncated (t : String)
  | errFailedRetrieveTables (e : PgErr)
  | errFailedTableInfo (e : PgErr)
  | errQueryFailed (e : PgErr)
  | errFailedTableExists (e : PgErr)
deriving DecidableEq, Repr

/-- A psycopg2 connection handle: only its `closed` flag is observable. -/
structure Conn where
  closed : Bool
deriving DecidableEq, Repr

/-- Method `PostgreSQLDataLoader.get_connection`. `connection` is the
current `self.connection`; `connectOk` is the oracle for whether
`psycopg2.connect` succeeds. A raised `ConnectionError` is the `.error`
case, carrying the exception message from the source. -/
def get_connection (connection : Option Conn) (connectOk : Bool) :
    Except String Conn :=
  match connection with
  | none =>
    if connectOk then .ok ⟨false⟩
    else .error "Failed to establish database connection"
  | some c =>
    if c.closed then
      if connectOk then .ok ⟨false⟩
      else .error "Failed to establish database connection"
    else .ok c

/-- Method `connect`: catches any failure of `psycopg2.connect`, prints an
error and returns False; returns True on success. -/
def connect (connectOk : Bool) : Bool × List Msg :=
  if connectOk then (true, []) else (false, [.errConnectionFailed])

/-- Module-level standalone `get_connection` function: wraps the method in
a bare try/except returning None on any failure. -/
def get_connection_standalone (connectOk : Bool) : Option Conn :=
  match get_connection none connectOk with
  | .ok c => some c
  | .error _ => none

def listStartsWith : List Char → List Char → Bool
  | _, [] => true
  | [], _ :: _ => false
  | a :: as, b :: bs => a = b && listStartsWith as bs

def listContainsSub : List Char → List Char → Bool
  | [], p => p.isEmpty
  | a :: t, p => listStartsWith (a :: t) p || listContainsSub t p

/-- Python `pat in s` substring test. -/
def strContainsSub (s pat : String) : Bool :=
  listContainsSub s.toList pat.toList

/-- Method `_map_dtype_to_postgres`, checking substrings of the dtype
string in source order. -/
def mapDtypeToPostgres (dtype : String) : String :=
  if strContainsSub dtype "int" then "INTEGER"
  else if strContainsSub dtype "float" then "DOUBLE PRECISION"
  else if strContainsSub dtype "bool" then "BOOLEAN"
  else if strContainsSub dtype "datetime" then "TIMESTAMP"
  else if strContainsSub dtype "date" then "DATE"
  else "TEXT"

/-- Column definitions built from `df.dtypes`; a truthy `primary_key`
matching the column name appends the PRIMARY KEY constraint. -/
def buildColsDef (df : DataFrame) (primary_key : Option String) :
    List (String × String) :=
  df.cols.map (fun cd =>
    (cd.1, mapDtypeToPostgres cd.2 ++
      (if primary_key.getD "" ≠ "" ∧ primary_key = some cd.1
       then " PRIMARY KEY" else "")))

/-- Semantics of executing the CREATE TABLE statement: with IF NOT EXISTS
an existing table makes it a no-op, otherwise a duplicate-table error is
raised; a fresh table is created empty. -/
def execCreateStmt (db : DB) (t : String) (ifNotExists : Bool)
    (cols : List (String × String)) : Except PgErr DB :=
  match lookupTable db t with
  | some _ => if ifNotExists then .ok db else .error .duplicateTable
  | none => .ok (setTable db t ⟨cols, []⟩)

/-- The `if_exists` pre-handling of `create_table_from_dataframe`:
`replace` drops any existing table first; `fail` queries existence and
returns early (the `none` result) when the table is present; any other
value does nothing. The statements issued by the pre-step are returned. -/
def createPre (db : DB) (t : String) (if_exists : String) :
    Option (DB × List Stmt) :=
  if if_exists = "replace" then some (removeTable db t, [.dropTable t true])
  else if if_exists = "fail" then
    if (lookupTable db t).isSome then none
    else some (db, [.queryTableExists t])
  else some (db, [])

/-- Method `create_table_from_dataframe`. Output: (returned bool, durable
store after the call, statements issued, messages printed). -/
def create_table_from_dataframe (db : DB) (connectOk : Bool)
    (df : DataFrame) (table_name : String) (primary_key : Option String)
    (if_exists : String) : Bool × DB × List Stmt × List Msg :=
  let warn := if df.isEmpty then [Msg.warnEmptyDataFrame] else []
  if table_name = "" then (false, db, [], warn ++ [.errTableNameEmpty])
  else if !connectOk then
    (false, db, [], warn ++ [.errConnectionFailed, .errCaught .connectionError])
  else
    match createPre db table_name if_exists with
    | none =>
      (false, db, [.queryTableExists table_name],
       warn ++ [.errTableExists table_name])
    | some (db1, tr1) =>
      let colsDef := buildColsDef df primary_key
      let ifne := if_exists = "skip"
      match execCreateStmt db1 table_name ifne colsDef with
      | .ok db2 =>
        (true, db2, tr1 ++ [.createTable table_name ifne colsDef],
         warn ++ [.infoCreatingTable table_name, .okTableCreated table_name])
      | .error e =>
        (false, db, tr1 ++ [.createTable table_name ifne colsDef],
         warn ++ [.infoCreatingTable table_name, .errCaught e])

/-- One row of `df[db_columns].values`: the row's values at the live
columns, in live order. -/
def projectRow (dfColNames : List String) (dbCols : List String)
    (row : List Val) : List Val :=
  dbCols.map (fun c => row.getD (dfColNames.indexOf c) 0)

/-- `df[db_columns].values.tolist()`: every input row reordered/projected
to the live column order. -/
def dataValues (df : DataFrame) (dbCols : List String) : List (List Val) :=
  df.rows.map (projectRow df.colNames dbCols)

/-- The paging of `psycopg2.extras.execute_values`: the value list split
into consecutive pages of `page_size` rows. -/
def chunksPages (n : Nat) (l : List (List Val)) : List (List (List Val)) :=
  if l = [] then []
  else if n = 0 then [l]
  else l.take n :: chunksPages n (l.drop n)
termination_by l.length
decreasing_by
  simp only [List.length_drop]
  cases l with
  | nil => simp_all
  | cons a t => simp; omega

/-- Sequential execution of the insert pages; `err i` is the oracle for
whether executing page `i` raises. Returns whether all pages succeeded and
the insert statements actually issued (the failing one included). -/
def execPages (t : String) (cols : List String) (err : Nat → Bool) :
    Nat → List (List (List Val)) → Bool × List Stmt
  | _, [] => (true, [])
  | i, p :: ps =>
    if err i then (false, [Stmt.insertPage t cols p])
    else
      let r := execPages t cols err (i + 1) ps
      (r.1, Stmt.insertPage t cols p :: r.2)

/-- Method `insert_dataframe`. Output: (returned Optional[int], durable
store after the call, statements issued, messages printed). The source's
`if not db_columns` check fires whenever the catalog query returns an
empty column list — both when the table is absent and when a present
table has zero columns — and reports "not found" either way.
`cur.rowcount` after `execute_values` is the row count of the last
statement executed, hence the last page's length on success. -/
def insert_dataframe (db : DB) (connectOk : Bool) (pageErr : Nat → Bool)
    (df : DataFrame) (table_name : String) (batch_size : Nat) :
    Option Nat × DB × List Stmt × List Msg :=
  if df.isEmpty then (some 0, db, [], [.warnEmptyDataFrame])
  else if table_name = "" then (none, db, [], [.errTableNameEmpty])
  else if !connectOk then
    (none, db, [], [.errConnectionFailed, .errCaught .connectionError])
  else
    match lookupTable db table_name with
    | none =>
      (none, db, [.queryColumns table_name], [.errTableNotFound table_name])
    | some tbl =>
      if tbl.colNames.isEmpty then
        (none, db, [.queryColumns table_name], [.errTableNotFound table_name])
      else
        let dbCols := tbl.colNames
        let missing := dbCols.filter (fun c => decide (c ∉ df.colNames))
        if !missing.isEmpty then
          (none, db, [.queryColumns table_name],
           [.errMissingColumns missing dbCols df.colNames])
        else
          let data := dataValues df dbCols
          let pages := chunksPages batch_size data
          let r := execPages table_name dbCols pageErr 0 pages
          if r.1 then
            (some (pages.getLastD []).length,
             setTable db table_name ⟨tbl.cols, tbl.rows ++ data⟩,
             .queryColumns table_name :: r.2,
             [.infoInserting data.length table_name,
              .okInserted (pages.getLastD []).length])
          else
            (none, db, .queryColumns table_name :: r.2,
             [.infoInserting data.length table_name, .errCaught .pageError])

/-- Method `drop_table` (DROP TABLE IF EXISTS never errors; dependent
objects are outside the model). -/
def drop_table (db : DB) (connectOk : Bool) (table_name : String)
    (cascade : Bool) : Bool × DB × List Stmt × List Msg :=
  if table_name = "" then (false, db, [], [.errTableNameEmpty])
  else if !connectOk then
    (false, db, [], [.errConnectionFailed, .errCaught .connectionError])
  else
    (true, removeTable db table_name, [.dropTable table_name cascade],
     [.infoDropping table_name, .okDropped table_name])

/-- Method `truncate_table` (TRUNCATE on an absent table raises an
undefined-table error, caught and rolled back by the source). -/
def truncate_table (db : DB) (connectOk : Bool) (table_name : String)
    (restart_identity : Bool) : Bool × DB × List Stmt × List Msg :=
  if table_name = "" then (false, db, [], [.errTableNameEmpty])
  else if !connectOk then
    (false, db, [], [.errConnectionFailed, .errCaught .connectionError])
  else
    match lookupTable db table_name with
    | none =>
      (false, db, [.truncateTable table_name restart_identity],
       [.infoTruncating table_name, .errCaught .undefinedTable])
    | some tbl =>
      (true, setTable db table_name ⟨tbl.cols, []⟩,
       [.truncateTable table_name restart_identity],
       [.infoTruncating table_name, .okTruncated table_name])

/-- Method `get_all_tables`: lists the base-table names, which the
external catalog returns ordered by name; any failure is caught and
converted to None. Read-only: no store is returned. -/
def get_all_tables (db : DB) (connectOk : Bool) :
    Option (List String) × List Stmt × List Msg :=
  if !connectOk then
    (none, [],
     [.errConnectionFailed, .errFailedRetrieveTables .connectionError])
  else
    (some ((db.map Prod.fst).mergeSort (fun a b => decide (a ≤ b))),
     [.queryAllTables], [])

/-- The dictionary `get_table_info` returns: table name, column
descriptors (the model keeps name and type), and the row count. -/
structure TableInfo where
  table_name : String
  cols : List (String × String)
  row_count : Nat
deriving DecidableEq, Repr

/-- Method `get_table_info`: column metadata plus a `SELECT COUNT(*)`.
On an absent table the columns query returns an empty list but the count
query raises an undefined-table error, which the except clause converts
to None. -/
def get_table_info (db : DB) (connectOk : Bool) (table_name : String) :
    Option TableInfo × List Stmt × List Msg :=
  if table_name = "" then (none, [], [.errTableNameEmpty])
  else if !connectOk then
    (none, [], [.errConnectionFailed, .errFailedTableInfo .connectionError])
  else
    match lookupTable db table_name with
    | some tbl =>
      (some ⟨table_name, tbl.cols, tbl.rows.length⟩,
       [.queryColumns table_name, .queryCount table_name], [])
    | none =>
      (none, [.queryColumns table_name, .queryCount table_name],
       [.errFailedTableInfo .undefinedTable])

/-- Method `query_to_dataframe`: runs an arbitrary SQL query through
`pd.read_sql_query`. The query's outcome at the external store is the
oracle `queryRes`; any failure is caught and converted to None. -/
def query_to_dataframe (connectOk : Bool)
    (queryRes : Except PgErr DataFrame) (query : String) :
    Option DataFrame × List Stmt × List Msg :=
  if !connectOk then
    (none, [], [.errConnectionFailed, .errQueryFailed .connectionError])
  else
    match queryRes with
    | .ok df => (some df, [.execSql query], [])
    | .error e => (none, [.execSql query], [.errQueryFailed e])

/-- Python `f"LIMIT {limit}" if limit else ""`: None and 0 are falsy. -/
def limitClause (limit : Option Nat) : String :=
  match limit with
  | some n => if n = 0 then "" else "LIMIT " ++ toString n
  | none => ""

/-- Method `table_to_dataframe`: rejects an empty table name, then
delegates to `query_to_dataframe` with the built SELECT statement. -/
def table_to_dataframe (connectOk : Bool)
    (queryRes : Except PgErr DataFrame) (table_name : String)
    (limit : Option Nat) : Option DataFrame × List Stmt × List Msg :=
  if table_name = "" then (none, [], [.errTableNameEmpty])
  else
    query_to_dataframe connectOk queryRes
      ("SELECT * FROM " ++ table_name ++ " " ++ limitClause limit ++ ";")

/-- Method `table_exists`: the catalog existence query; any failure is
caught and converted to the sentinel False. No empty-name check exists in
the source for this method. -/
def table_exists (db : DB) (connectOk : Bool) (table_name : String) :
    Bool × List Stmt × List Msg :=
  if !connectOk then
    (false, [],
     [.errConnectionFailed, .errFailedTableExists .connectionError])
  else
    ((lookupTable db table_name).isSome, [.queryTableExists table_name], [])

/-- Observable used in the statements about the insert path: the rows
submitted through insert statements of a trace, in submission order. -/
def insertedRows (tr : List Stmt) : List (List Val) :=
  (tr.filterMap fun s =>
    match s with
    | .insertPage _ _ v => some v
    | _ => none).flatten

/-- Python `a or b` on optional strings: a None or empty `a` falls through
to `b`. -/
def pyOr (a : Option String) (b : String) : String :=
  match a with
  | none => b
  | some s => if s = "" then b else s

/-- `os.getenv(name, default)`: the variable's value when set (even if
empty), the default otherwise. -/
def getenvD (v : Option String) (d : String) : String := v.getD d

/-- The process environment variables consulted by the constructor. -/
structure EnvVars where
  dbHost : Option String
  dbPort : Option String
  dbName : Option String
  dbUser : Option String
  dbPassword : Option String
deriving DecidableEq, Repr

/-- The connection parameters held by a loader instance. -/
structure LoaderConfig where
  host : String
  port : String
  database : String
  user : String
  password : String
deriving DecidableEq, Repr

/-- Constructor `PostgreSQLDataLoader.__init__`: each parameter resolved as
`arg or os.getenv(VAR, default)`. -/
def initLoader (host port database user password : Option String)
    (env : EnvVars) : LoaderConfig :=
  { host := pyOr host (getenvD env.dbHost "localhost")
    port := pyOr port (getenvD env.dbPort "5432")
    database := pyOr database (getenvD env.dbName "postgres")
    user := pyOr user (getenvD env.dbUser "postgres")
    password := pyOr password (getenvD env.dbPassword "") }

/-- Stated from the spec's words: `result` is resolved from the explicit
argument first (when provided and non-empty, Python truthiness), then from
the named environment variable when set, then from the hard-coded
default, in that precedence order. -/
def resolvesWithPrecedence (arg envVar : Option String) (dflt result : String) :
    Prop :=
  (∀ s, arg = some s → s ≠ "" → result = s)
  ∧ ((arg = none ∨ arg = some "") → ∀ v, envVar = some v → result = v)
  ∧ ((arg = none ∨ arg = some "") → envVar = none → result = dflt)

end PgLoader

namespace ShortAnon

/-- Bytewise XOR of two equal-length byte sequences. -/
def xorBytes (a b : List Nat) : List Nat :=
  List.zipWith (fun x y => x ^^^ y) a b

/-- `Crypto.Util.Padding.pad` with PKCS#7 style and block size 16. -/
def pad (d : List Nat) : List Nat :=
  d ++ List.replicate (16 - d.length % 16) (16 - d.length % 16)

/-- `Crypto.Util.Padding.unpad` with PKCS#7 style and block size 16; the
`none` result models the ValueError it raises on bad padding. -/
def unpad (d : List Nat) : Option (List Nat) :=
  if d.length % 16 ≠ 0 then none
  else
    match d.getLast? with
    | none => none
    | some k =>
      if k < 1 ∨ 16 < k then none
      else if d.drop (d.length - k) ≠ List.replicate k k then none
      else some (d.take (d.length - k))

/-- Split a buffer into consecutive 16-byte cipher blocks. -/
def chunks16 (l : List Nat) : List (List Nat) :=
  if l = [] then [] else l.take 16 :: chunks16 (l.drop 16)
termination_by l.length
decreasing_by
  simp only [List.length_drop]
  cases l with
  | nil => simp_all
  | cons a t => simp; omega

/-- CBC-mode encryption of a block sequence: each plaintext block is XORed
with the previous ciphertext block (the IV first) before the block cipher
`encB` is applied. -/
def cbcEncrypt (encB : List Nat → List Nat) :
    List Nat → List (List Nat) → List (List Nat)
  | _, [] => []
  | prev, b :: bs =>
    let c := encB (xorBytes b prev)
    c :: cbcEncrypt encB c bs

/-- CBC-mode decryption with block cipher inverse `decB`. -/
def cbcDecrypt (decB : List Nat → List Nat) :
    List Nat → List (List Nat) → List (List Nat)
  | _, [] => []
  | prev, c :: cs => xorBytes (decB c) prev :: cbcDecrypt decB c cs

/-- The Base64URL alphabet. -/
def b64Char (n : Nat) : Char :=
  if n < 26 then Char.ofNat (65 + n)
  else if n < 52 then Char.ofNat (97 + (n - 26))
  else if n < 62 then Char.ofNat (48 + (n - 52))
  else if n = 62 then '-'
  else '_'

/-- Inverse of the Base64URL alphabet (total; the source's decoder raises
on characters outside the alphabet, which the round trip never meets). -/
def b64CharDec (c : Char) : Nat :=
  if c = '-' then 62
  else if c = '_' then 63
  else if 97 ≤ c.toNat then c.toNat - 97 + 26
  else if 65 ≤ c.toNat then c.toNat - 65
  else c.toNat - 48 + 52

/-- Base64 packing of bytes into 6-bit groups, remainder groups included
(the source strips the `=` padding, so they carry no padding marks). -/
def b64Sextets : List Nat → List Nat
  | [] => []
  | [a] => [a / 4, a % 4 * 16]
  | [a, b] => [a / 4, a % 4 * 16 + b / 16, b % 16 * 4]
  | a :: b :: c :: rest =>
    a / 4 :: (a % 4 * 16 + b / 16) :: (b % 16 * 4 + c / 64) :: c % 64 ::
      b64Sextets rest

/-- Base64 unpacking of 6-bit groups back into bytes; the remainder-group
shapes correspond to the `=` padding `b64u_dec` re-appends. -/
def sextetsToBytes : List Nat → List Nat
  | [] => []
  | [_] => []
  | [a, b] => [a * 4 + b / 16]
  | [a, b, c] => [a * 4 + b / 16, b % 16 * 16 + c / 4]
  | a :: b :: c :: d :: rest =>
    (a * 4 + b / 16) :: (b % 16 * 16 + c / 4) :: (c % 4 * 64 + d) ::
      sextetsToBytes rest

/-- Function `b64u`: urlsafe Base64 with the `=` padding stripped. -/
def b64u (bs : List Nat) : String :=
  String.mk ((b64Sextets bs).map b64Char)

/-- Function `b64u_dec`: re-append the `=` padding and decode. -/
def b64u_dec (s : String) : List Nat :=
  sextetsToBytes (s.toList.map b64CharDec)

/-- Method `ShortCBCAnonymizer.encode` over byte sequences. The AES-128
cipher object built from the secret-derived key is the external-library
parameter `encB`; the IV pycryptodome draws at random is the explicit
parameter `iv`. The token is `b64u(iv + ct)`. -/
def encode (encB : List Nat → List Nat) (iv pt : List Nat) : String :=
  b64u (iv ++ (cbcEncrypt encB iv (chunks16 (pad pt))).flatten)

/-- Method `ShortCBCAnonymizer.decode` over byte sequences, with the
external AES decryption `decB`; `none` models the exceptions unpadding can
raise. -/
def decode (decB : List Nat → List Nat) (token : String) : Option (List Nat) :=
  let raw := b64u_dec token
  let iv := raw.take 16
  let ct := raw.drop 16
  unpad (cbcDecrypt decB iv (chunks16 ct)).flatten

end ShortAnon

open PgLoader

theorem lookupTable_setTable_self (db : DB) (t : String) (u : Table) :
    lookupTable (setTable db t u) t = some u := by
  induction db with
  | nil => simp [setTable, lookupTable]
  | cons e rest ih =>
    obtain ⟨n, v⟩ := e
    by_cases h : n = t
    · simp [setTable, lookupTable, h]
    · simp [setTable, lookupTable, h, ih]

/-- Claim C5: for every table name and batch size, `insert_dataframe` on an
empty input row set short-circuits to a successful zero-row result (returns
0) without issuing any statement against the store. -/
theorem insert_empty_input_short_circuits
    (db : DB) (connectOk : Bool) (pageErr : Nat → Bool) (df : DataFrame)
    (table_name : String) (batch_size : Nat) (h : df.rows = []) :
    insert_dataframe db connectOk pageErr df table_name batch_size =
      (some 0, db, [], [.warnEmptyDataFrame]) := by
  have he : df.isEmpty = true := by simp [DataFrame.isEmpty, h]
  simp [insert_dataframe, he]

theorem insert_empty_input_short_circuits_witness :
    insert_dataframe [("users", ⟨[("id", "INTEGER")], []⟩)] true
      (fun _ => false) ⟨[("id", "int64")], []⟩ "users" 1000 =
      (some 0, [("users", ⟨[("id", "INTEGER")], []⟩)], [],
       [.warnEmptyDataFrame]) :=
  insert_empty_input_short_circuits _ _ _ _ _ _ rfl

/-- Claim C10: with an empty table name, `create_table_from_dataframe`,
`drop_table` and `truncate_table` return false and `insert_dataframe` on a
non-empty DataFrame returns none, each printing an error and issuing no
statement; in `insert_dataframe` the empty-DataFrame check precedes the
table-name check, so an empty DataFrame with an empty table name still
returns 0. -/
theorem empty_table_name_rejected
    (db : DB) (connectOk : Bool) (df : DataFrame) (pk : Option String)
    (ie : String) (casc ri : Bool) (pageErr : Nat → Bool) (bs : Nat) :
    create_table_from_dataframe db connectOk df "" pk ie =
      (false, db, [],
       (if df.isEmpty then [Msg.warnEmptyDataFrame] else []) ++
         [.errTableNameEmpty])
    ∧ drop_table db connectOk "" casc = (false, db, [], [.errTableNameEmpty])
    ∧ truncate_table db connectOk "" ri = (false, db, [], [.errTableNameEmpty])
    ∧ (df.isEmpty = false →
        insert_dataframe db connectOk pageErr df "" bs =
          (none, db, [], [.errTableNameEmpty]))
    ∧ (df.rows = [] →
        insert_dataframe db connectOk pageErr df "" bs =
          (some 0, db, [], [.warnEmptyDataFrame])) := by
  refine ⟨?_, ?_, ?_, ?_, ?_⟩
  · simp [create_table_from_dataframe]
  · simp [drop_table]
  · simp [truncate_table]
  · intro h; simp [insert_dataframe, h]
  · intro h
    exact insert_empty_input_short_circuits db connectOk pageErr df "" bs h

theorem empty_table_name_rejected_witness :
    drop_table [] true "" false = (false, [], [], [.errTableNameEmpty]) ∧
    insert_dataframe [] true (fun _ => false)
      ⟨[("id", "int64")], [[1]]⟩ "" 10 =
      (none, [], [], [.errTableNameEmpty]) :=
  ⟨(empty_table_name_rejected [] true ⟨[("id", "int64")], [[1]]⟩ none "skip"
      false false (fun _ => false) 10).2.1,
   (empty_table_name_rejected [] true ⟨[("id", "int64")], [[1]]⟩ none "skip"
      false false (fun _ => false) 10).2.2.2.1 (by decide)⟩

/-- Claim C3: with `if_exists = 'fail'` on a pre-existing table,
`create_table_from_dataframe` checks existence first, returns failure, and
performs no mutation: the store (including the existing table and its
rows) is returned unchanged and the only statement issued is the
existence query. -/
theorem create_fail_preexisting_aborts
    (db : DB) (df : DataFrame) (t : String) (pk : Option String)
    (tbl : Table) (hname : t ≠ "") (hlk : lookupTable db t = some tbl) :
    create_table_from_dataframe db true df t pk "fail" =
      (false, db, [.queryTableExists t],
       (if df.isEmpty then [Msg.warnEmptyDataFrame] else []) ++
         [.errTableExists t]) := by
  simp [create_table_from_dataframe, hname, createPre, hlk]

theorem create_fail_preexisting_aborts_witness :
    create_table_from_dataframe
      [("t1", ⟨[("id", "INTEGER")], [[7]]⟩)] true
      ⟨[("id", "int64")], [[1]]⟩ "t1" none "fail" =
      (false, [("t1", ⟨[("id", "INTEGER")], [[7]]⟩)],
       [.queryTableExists "t1"], [.errTableExists "t1"]) :=
  create_fail_preexisting_aborts _ _ _ _ _ (by decide) rfl

/-- Claim C4: `create_table_from_dataframe` with `if_exists = 'skip'` is
idempotent: a second call on the store produced by the first returns true
without altering anything, and under the skip policy a call on any store
already holding the table succeeds as a no-op (CREATE TABLE IF NOT
EXISTS never errors on a pre-existing table). -/
theorem create_skip_idempotent
    (db : DB) (df : DataFrame) (t : String) (pk : Option String)
    (hname : t ≠ "") :
    ((create_table_from_dataframe
        (create_table_from_dataframe db true df t pk "skip").2.1
        true df t pk "skip").1 = true
      ∧ (create_table_from_dataframe
          (create_table_from_dataframe db true df t pk "skip").2.1
          true df t pk "skip").2.1
        = (create_table_from_dataframe db true df t pk "skip").2.1)
    ∧ (∀ tbl, lookupTable db t = some tbl →
        create_table_from_dataframe db true df t pk "skip" =
          (true, db, [.createTable t true (buildColsDef df pk)],
           (if df.isEmpty then [Msg.warnEmptyDataFrame] else []) ++
             [.infoCreatingTable t, .okTableCreated t])) := by
  have hskip : ∀ (db' : DB) (tbl : Table), lookupTable db' t = some tbl →
      create_table_from_dataframe db' true df t pk "skip" =
        (true, db', [.createTable t true (buildColsDef df pk)],
         (if df.isEmpty then [Msg.warnEmptyDataFrame] else []) ++
           [.infoCreatingTable t, .okTableCreated t]) := by
    intro db' tbl hlk
    simp [create_table_from_dataframe, hname, createPre, execCreateStmt, hlk]
  refine ⟨?_, fun tbl h => hskip db tbl h⟩
  cases hlk : lookupTable db t with
  | some tbl =>
    rw [hskip db tbl hlk]
    rw [hskip db tbl hlk]
    exact ⟨rfl, rfl⟩
  | none =>
    have h1 : create_table_from_dataframe db true df t pk "skip" =
        (true, setTable db t ⟨buildColsDef df pk, []⟩,
         [.createTable t true (buildColsDef df pk)],
         (if df.isEmpty then [Msg.warnEmptyDataFrame] else []) ++
           [.infoCreatingTable t, .okTableCreated t]) := by
      simp [create_table_from_dataframe, hname, createPre, execCreateStmt, hlk]
    rw [h1]
    rw [hskip (setTable db t ⟨buildColsDef df pk, []⟩) _
      (lookupTable_setTable_self db t _)]
    exact ⟨rfl, rfl⟩

theorem create_skip_idempotent_witness :
    ((create_table_from_dataframe
        (create_table_from_dataframe [] true
          ⟨[("id", "int64")], [[1]]⟩ "t1" none "skip").2.1
        true ⟨[("id", "int64")], [[1]]⟩ "t1" none "skip").1 = true) :=
  ((create_skip_idempotent [] ⟨[("id", "int64")], [[1]]⟩ "t1" none
      (by decide)).1).1

theorem insert_dataframe_db_cases (db : DB) (ck : Bool) (pe : Nat → Bool)
    (df : DataFrame) (t : String) (bs : Nat) :
    ((insert_dataframe db ck pe df t bs).2.1 = db
      ∧ ((insert_dataframe db ck pe df t bs).1 = none
         ∨ (insert_dataframe db ck pe df t bs).1 = some 0))
    ∨ (∃ tbl, lookupTable db t = some tbl
        ∧ (∃ n, (insert_dataframe db ck pe df t bs).1 = some n)
        ∧ (insert_dataframe db ck pe df t bs).2.1
          = setTable db t ⟨tbl.cols, tbl.rows ++ dataValues df tbl.colNames⟩) := by
  unfold insert_dataframe
  split
  · exact Or.inl ⟨rfl, Or.inr rfl⟩
  · split
    · exact Or.inl ⟨rfl, Or.inl rfl⟩
    · split
      · exact Or.inl ⟨rfl, Or.inl rfl⟩
      · split
        next => exact Or.inl ⟨rfl, Or.inl rfl⟩
        next tbl heq =>
          split
          · exact Or.inl ⟨rfl, Or.inl rfl⟩
          · dsimp only
            split
            · exact Or.inl ⟨rfl, Or.inl rfl⟩
            · split
              · exact Or.inr ⟨tbl, heq, ⟨_, rfl⟩, rfl⟩
              · exact Or.inl ⟨rfl, Or.inl rfl⟩

theorem create_false_keeps_db (db : DB) (ck : Bool) (df : DataFrame)
    (t : String) (pk : Option String) (ie : String) :
    (create_table_from_dataframe db ck df t pk ie).1 = false →
    (create_table_from_dataframe db ck df t pk ie).2.1 = db := by
  unfold create_table_from_dataframe
  dsimp only
  split
  · intro _; rfl
  · split
    · intro _; rfl
    · split
      next => intro _; rfl
      next =>
        split
        · intro h; cases h
        · intro _; rfl

theorem drop_false_keeps_db (db : DB) (ck : Bool) (t : String) (c : Bool) :
    (drop_table db ck t c).1 = false → (drop_table db ck t c).2.1 = db := by
  unfold drop_table
  split
  · intro _; rfl
  · split
    · intro _; rfl
    · intro h; cases h

theorem truncate_false_keeps_db (db : DB) (ck : Bool) (t : String)
    (ri : Bool) :
    (truncate_table db ck t ri).1 = false →
    (truncate_table db ck t ri).2.1 = db := by
  unfold truncate_table
  split
  · intro _; rfl
  · split
    · intro _; rfl
    · split
      · intro _; rfl
      · intro h; cases h

/-- Claim C2, counterexample: the public method `get_connection` does not
convert its failure to a sentinel value — when no connection exists and
connecting fails it raises a ConnectionError (the `.error` outcome), which
propagates to its caller. -/
theorem get_connection_raises_counterexample :
    get_connection none false =
      Except.error "Failed to establish database connection" := rfl

/-- Claim C2 as amended: every public operation of the adapter other than
the `get_connection` method — `connect`, `create_table_from_dataframe`,
`insert_dataframe`, `drop_table`, `truncate_table`, `get_all_tables`,
`get_table_info`, `query_to_dataframe`, `table_to_dataframe` and
`table_exists` — catches the failures of its body at the operation
boundary, returning a sentinel (false/none) plus printed messages, the
mutating operations rolling the store back; the module-level standalone
`get_connection` helper likewise converts connection faults to none. The
`get_connection` method, however, raises a ConnectionError rather than
returning a sentinel (see the counterexample). -/
theorem operation_failures_caught
    (db : DB) (df : DataFrame) (t : String) (pk : Option String)
    (ie : String) (casc ri : Bool) (pageErr : Nat → Bool) (bs : Nat)
    (hname : t ≠ "") :
    (df.isEmpty = false →
      insert_dataframe db false pageErr df t bs =
        (none, db, [], [.errConnectionFailed, .errCaught .connectionError]))
    ∧ create_table_from_dataframe db false df t pk ie =
        (false, db, [],
         (if df.isEmpty then [Msg.warnEmptyDataFrame] else []) ++
           [.errConnectionFailed, .errCaught .connectionError])
    ∧ drop_table db false t casc =
        (false, db, [], [.errConnectionFailed, .errCaught .connectionError])
    ∧ truncate_table db false t ri =
        (false, db, [], [.errConnectionFailed, .errCaught .connectionError])
    ∧ (∀ ck pe, (insert_dataframe db ck pe df t bs).1 = none →
        (insert_dataframe db ck pe df t bs).2.1 = db)
    ∧ (∀ ck, (create_table_from_dataframe db ck df t pk ie).1 = false →
        (create_table_from_dataframe db ck df t pk ie).2.1 = db)
    ∧ (∀ ck, (drop_table db ck t casc).1 = false →
        (drop_table db ck t casc).2.1 = db)
    ∧ (∀ ck, (truncate_table db ck t ri).1 = false →
        (truncate_table db ck t ri).2.1 = db)
    ∧ connect false = (false, [.errConnectionFailed])
    ∧ get_all_tables db false =
        (none, [],
         [.errConnectionFailed, .errFailedRetrieveTables .connectionError])
    ∧ get_table_info db false t =
        (none, [],
         [.errConnectionFailed, .errFailedTableInfo .connectionError])
    ∧ (lookupTable db t = none →
        get_table_info db true t =
          (none, [.queryColumns t, .queryCount t],
           [.errFailedTableInfo .undefinedTable]))
    ∧ (∀ (qr : Except PgErr DataFrame) (q : String),
        query_to_dataframe false qr q =
          (none, [], [.errConnectionFailed, .errQueryFailed .connectionError]))
    ∧ (∀ (e : PgErr) (q : String),
        query_to_dataframe true (.error e) q =
          (none, [.execSql q], [.errQueryFailed e]))
    ∧ (∀ (qr : Except PgErr DataFrame) (lim : Option Nat),
        table_to_dataframe false qr t lim =
          (none, [], [.errConnectionFailed, .errQueryFailed .connectionError]))
    ∧ table_exists db false t =
        (false, [],
         [.errConnectionFailed, .errFailedTableExists .connectionError])
    ∧ get_connection_standalone false = none := by
  refine ⟨?_, ?_, ?_, ?_, ?_, ?_, ?_, ?_, rfl, rfl, ?_, ?_, ?_, ?_, ?_, rfl,
    rfl⟩
  · intro h; simp [insert_dataframe, h, hname]
  · simp [create_table_from_dataframe, hname]
  · simp [drop_table, hname]
  · simp [truncate_table, hname]
  · intro ck pe h
    rcases insert_dataframe_db_cases db ck pe df t bs with ⟨hdb, _⟩ | ⟨_, _, ⟨n, hn⟩, _⟩
    · exact hdb
    · rw [h] at hn; cases hn
  · exact fun ck => create_false_keeps_db db ck df t pk ie
  · exact fun ck => drop_false_keeps_db db ck t casc
  · exact fun ck => truncate_false_keeps_db db ck t ri
  · simp [get_table_info, hname]
  · intro hlk; simp [get_table_info, hname, hlk]
  · intro qr q; simp [query_to_dataframe]
  · intro e q; simp [query_to_dataframe]
  · intro qr lim; simp [table_to_dataframe, hname, query_to_dataframe]

theorem operation_failures_caught_witness :
    insert_dataframe [] false (fun _ => false)
      ⟨[("id", "int64")], [[1]]⟩ "t1" 10 =
      (none, [], [], [.errConnectionFailed, .errCaught .connectionError]) :=
  (operation_failures_caught [] ⟨[("id", "int64")], [[1]]⟩ "t1" none "skip"
      false false (fun _ => false) 10 (by decide)).1 (by decide)

theorem pyOr_getenvD_resolution (a e : Option String) (d : String) :
    resolvesWithPrecedence a e d (pyOr a (getenvD e d)) := by
  refine ⟨?_, ?_, ?_⟩
  · intro s hs hne
    subst hs
    simp [pyOr, hne]
  · intro ha v hv
    subst hv
    rcases ha with h | h <;> subst h <;> simp [pyOr, getenvD]
  · intro ha he
    subst he
    rcases ha with h | h <;> subst h <;> simp [pyOr, getenvD]

/-- Claim C8: each of the five connection parameters is resolved from the
explicit constructor argument first (when provided and truthy), then from
its named environment variable (DB_HOST, DB_PORT, DB_NAME, DB_USER,
DB_PASSWORD), then from the hard-coded defaults localhost, 5432,
"postgres", "postgres" and the empty credential, in that order. -/
theorem config_resolution_precedence
    (host port database user password : Option String) (env : EnvVars) :
    resolvesWithPrecedence host env.dbHost "localhost"
      (initLoader host port database user password env).host
    ∧ resolvesWithPrecedence port env.dbPort "5432"
      (initLoader host port database user password env).port
    ∧ resolvesWithPrecedence database env.dbName "postgres"
      (initLoader host port database user password env).database
    ∧ resolvesWithPrecedence user env.dbUser "postgres"
      (initLoader host port database user password env).user
    ∧ resolvesWithPrecedence password env.dbPassword ""
      (initLoader host port database user password env).password :=
  ⟨pyOr_getenvD_resolution host env.dbHost "localhost",
   pyOr_getenvD_resolution port env.dbPort "5432",
   pyOr_getenvD_resolution database env.dbName "postgres",
   pyOr_getenvD_resolution user env.dbUser "postgres",
   pyOr_getenvD_resolution password env.dbPassword ""⟩

theorem config_resolution_precedence_witness :
    (initLoader (some "h1") none none none none
      ⟨some "envhost", some "envport", none, none, none⟩).host = "h1"
    ∧ (initLoader (some "h1") none none none none
        ⟨some "envhost", some "envport", none, none, none⟩).port = "envport"
    ∧ (initLoader (some "h1") none none none none
        ⟨some "envhost", some "envport", none, none, none⟩).database
      = "postgres" :=
  ⟨(config_resolution_precedence (some "h1") none none none none
      ⟨some "envhost", some "envport", none, none, none⟩).1.1 "h1" rfl
      (by decide),
   (config_resolution_precedence (some "h1") none none none none
      ⟨some "envhost", some "envport", none, none, none⟩).2.1.2.1
      (Or.inl rfl) "envport" rfl,
   (config_resolution_precedence (some "h1") none none none none
      ⟨some "envhost", some "envport", none, none, none⟩).2.2.1.2.2
      (Or.inl rfl) rfl⟩

/-- Claim C1: if any required (live-table) column is absent from the
DataFrame's columns, `insert_dataframe` aborts with a missing-columns
failure naming the specific missing set, and no rows are inserted: on
every path the store is unchanged and no insert statement is issued, and
on the reachable validation path the call returns none with exactly the
catalog query issued and the missing set reported. -/
theorem insert_missing_columns_aborts
    (db : DB) (connectOk : Bool) (pageErr : Nat → Bool) (df : DataFrame)
    (t : String) (bs : Nat) (tbl : Table)
    (hlk : lookupTable db t = some tbl)
    (hmiss : tbl.colNames.filter (fun c => decide (c ∉ df.colNames)) ≠ []) :
    (insert_dataframe db connectOk pageErr df t bs).2.1 = db
    ∧ (∀ s ∈ (insert_dataframe db connectOk pageErr df t bs).2.2.1,
        ∀ cols vals, s ≠ Stmt.insertPage t cols vals)
    ∧ (df.isEmpty = false → t ≠ "" → connectOk = true →
        insert_dataframe db connectOk pageErr df t bs =
          (none, db, [.queryColumns t],
           [.errMissingColumns
              (tbl.colNames.filter (fun c => decide (c ∉ df.colNames)))
              tbl.colNames df.colNames])) := by
  have hER : (tbl.colNames.filter (fun c => decide (c ∉ df.colNames))).isEmpty
      = false := by
    cases hq : (tbl.colNames.filter (fun c => decide (c ∉ df.colNames))).isEmpty
    · rfl
    · exact absurd (List.isEmpty_iff.mp hq) hmiss
  have hmain : df.isEmpty = false → t ≠ "" → connectOk = true →
      insert_dataframe db connectOk pageErr df t bs =
        (none, db, [.queryColumns t],
         [.errMissingColumns
            (tbl.colNames.filter (fun c => decide (c ∉ df.colNames)))
            tbl.colNames df.colNames]) := by
    intro h1 h2 h3
    subst h3
    unfold insert_dataframe
    rw [if_neg (show ¬(df.isEmpty = true) by simp [h1])]
    rw [if_neg h2]
    rw [if_neg (show ¬((!true) = true) by simp)]
    rw [hlk]
    dsimp only
    have hcne : tbl.colNames.isEmpty = false := by
      cases hq : tbl.colNames.isEmpty
      · rfl
      · rw [List.isEmpty_iff.mp hq] at hmiss
        exact absurd rfl hmiss
    rw [if_neg (show ¬(tbl.colNames.isEmpty = true) by rw [hcne]; simp)]
    rw [if_pos
      (show (!(tbl.colNames.filter
          (fun c => decide (c ∉ df.colNames))).isEmpty) = true by
        rw [hER]; rfl)]
  refine ⟨?_, ?_, hmain⟩
  all_goals
    cases h1 : df.isEmpty
    · by_cases h2 : t = ""
      · simp [insert_dataframe, h1, h2]
      · by_cases h3 : connectOk = true
        · rw [hmain h1 h2 h3]
          try simp
        · rw [Bool.not_eq_true] at h3
          simp [insert_dataframe, h1, h2, h3]
    · simp [insert_dataframe, h1]

theorem insert_missing_columns_aborts_witness :
    insert_dataframe [("t", ⟨[("id", "INTEGER"), ("name", "TEXT")], []⟩)]
      true (fun _ => false) ⟨[("name", "object")], [[5]]⟩ "t" 1000 =
      (none, [("t", ⟨[("id", "INTEGER"), ("name", "TEXT")], []⟩)],
       [.queryColumns "t"],
       [.errMissingColumns ["id"] ["id", "name"] ["name"]]) :=
  (insert_missing_columns_aborts
      [("t", ⟨[("id", "INTEGER"), ("name", "TEXT")], []⟩)] true
      (fun _ => false) ⟨[("name", "object")], [[5]]⟩ "t" 1000
      ⟨[("id", "INTEGER"), ("name", "TEXT")], []⟩ rfl
      (by decide)).2.2 (by decide) (by decide) rfl

theorem chunksPages_flatten (n : Nat) (hn : n ≠ 0) (l : List (List Val)) :
    (chunksPages n l).flatten = l := by
  rw [chunksPages]
  by_cases h : l = []
  · simp [h]
  · rw [if_neg h, if_neg hn]
    simp only [List.flatten_cons]
    rw [chunksPages_flatten n hn (l.drop n)]
    exact List.take_append_drop n l
termination_by l.length
decreasing_by
  simp only [List.length_drop]
  cases l with
  | nil => simp_all
  | cons a t => simp; omega

theorem chunksPages_ne_nil_arg (n : Nat) (l : List (List Val))
    (h : chunksPages n l ≠ []) : l ≠ [] := by
  intro hl
  rw [hl] at h
  simp [chunksPages] at h

theorem chunksPages_dropLast_length (n : Nat) (hn : n ≠ 0)
    (l : List (List Val)) :
    ∀ p ∈ (chunksPages n l).dropLast, p.length = n := by
  rw [chunksPages]
  by_cases h : l = []
  · simp [h]
  · rw [if_neg h, if_neg hn]
    cases hq : chunksPages n (l.drop n) with
    | nil => simp
    | cons q qs =>
      have hne : chunksPages n (l.drop n) ≠ [] := by rw [hq]; simp
      have hdne : l.drop n ≠ [] := chunksPages_ne_nil_arg n (l.drop n) hne
      have hlen : n < l.length := by
        rcases Nat.lt_or_ge l.length n with hc | hc
        · exact absurd (List.drop_eq_nil_iff.mpr (Nat.le_of_lt hc)) hdne
        · rcases Nat.eq_or_lt_of_le hc with hc' | hc'
          · exact absurd (List.drop_eq_nil_iff.mpr (Nat.le_of_eq hc'.symm))
              hdne
          · exact hc'
      rw [← hq]
      rw [List.dropLast_cons_of_ne_nil hne]
      intro p hp
      rcases List.mem_cons.mp hp with hp | hp
      · rw [hp, List.length_take]
        omega
      · exact chunksPages_dropLast_length n hn (l.drop n) p hp
termination_by l.length
decreasing_by
  simp only [List.length_drop]
  cases l with
  | nil => simp_all
  | cons a t => simp; omega

/-- Claim C7: `insert_dataframe` submits all rows as one logical multi-row
insert internally chunked into pages of `batch_size` rows (the pages
concatenate back to the full value list and every non-final page holds
exactly `batch_size` rows), and the chunking does not change all-or-nothing
commit semantics: for every input and every page-failure oracle the durable
store either stays exactly as it was (whole call rolled back) or holds all
submitted rows appended (whole call committed); no proper prefix of the
pages is ever committed alone. -/
theorem insert_batched_all_or_nothing
    (db : DB) (connectOk : Bool) (pageErr : Nat → Bool) (df : DataFrame)
    (t : String) (bs : Nat) (hbs : bs ≠ 0) :
    (∀ l : List (List Val), (chunksPages bs l).flatten = l
        ∧ ∀ p ∈ (chunksPages bs l).dropLast, p.length = bs)
    ∧ ((insert_dataframe db connectOk pageErr df t bs).2.1 = db
       ∨ ∃ tbl, lookupTable db t = some tbl
           ∧ (insert_dataframe db connectOk pageErr df t bs).2.1
             = setTable db t ⟨tbl.cols, tbl.rows ++ dataValues df tbl.colNames⟩) := by
  constructor
  · exact fun l =>
      ⟨chunksPages_flatten bs hbs l, chunksPages_dropLast_length bs hbs l⟩
  · rcases insert_dataframe_db_cases db connectOk pageErr df t bs with
      ⟨h, _⟩ | ⟨tbl, hlk, _, h⟩
    · exact Or.inl h
    · exact Or.inr ⟨tbl, hlk, h⟩

theorem insert_batched_all_or_nothing_witness :
    (chunksPages 2 [[1], [2], [3]]).flatten = [[1], [2], [3]]
    ∧ ((insert_dataframe [("t", ⟨[("id", "INTEGER")], []⟩)] true
          (fun i => decide (0 < i)) ⟨[("id", "int64")], [[1], [2], [3]]⟩
          "t" 2).2.1 = [("t", ⟨[("id", "INTEGER")], []⟩)]
       ∨ ∃ tbl, lookupTable [("t", ⟨[("id", "INTEGER")], []⟩)] "t" = some tbl
           ∧ (insert_dataframe [("t", ⟨[("id", "INTEGER")], []⟩)] true
               (fun i => decide (0 < i)) ⟨[("id", "int64")], [[1], [2], [3]]⟩
               "t" 2).2.1
             = setTable [("t", ⟨[("id", "INTEGER")], []⟩)] "t"
                 ⟨tbl.cols, tbl.rows ++
                   dataValues ⟨[("id", "int64")], [[1], [2], [3]]⟩
                     tbl.colNames⟩) :=
  ⟨((insert_batched_all_or_nothing [("t", ⟨[("id", "INTEGER")], []⟩)] true
      (fun i => decide (0 < i)) ⟨[("id", "int64")], [[1], [2], [3]]⟩ "t" 2
      (by decide)).1 [[1], [2], [3]]).1,
   (insert_batched_all_or_nothing [("t", ⟨[("id", "INTEGER")], []⟩)] true
      (fun i => decide (0 < i)) ⟨[("id", "int64")], [[1], [2], [3]]⟩ "t" 2
      (by decide)).2⟩

theorem execPages_no_err (t : String) (cols : List String)
    (ps : List (List (List Val))) : ∀ i,
    execPages t cols (fun _ => false) i ps =
      (true, ps.map (Stmt.insertPage t cols)) := by
  induction ps with
  | nil => intro i; rfl
  | cons p ps ih => intro i; simp [execPages, ih (i + 1)]

theorem filterMap_insertPage (t : String) (cols : List String) :
    ∀ ps : List (List (List Val)),
    List.filterMap (fun s => match s with
        | Stmt.insertPage _ _ v => some v
        | _ => none) (ps.map (Stmt.insertPage t cols)) = ps := by
  intro ps
  induction ps with
  | nil => rfl
  | cons p ps ih => simp only [List.map_cons, List.filterMap_cons]; rw [ih]

theorem insertedRows_pages (t : String) (cols : List String)
    (ps : List (List (List Val))) :
    insertedRows (Stmt.queryColumns t :: ps.map (Stmt.insertPage t cols))
      = ps.flatten := by
  unfold insertedRows
  rw [List.filterMap_cons]
  dsimp only
  rw [filterMap_insertPage]

theorem projectRow_extra_column (names dbCols : List String) (x : String)
    (r : List Val) (v : Val) (hsup : ∀ c ∈ dbCols, c ∈ names)
    (hr : r.length = names.length) :
    projectRow (names ++ [x]) dbCols (r ++ [v]) = projectRow names dbCols r := by
  unfold projectRow
  apply List.map_congr_left
  intro c hc
  rw [List.indexOf_append_of_mem (hsup c hc)]
  have hidx : names.indexOf c < r.length := by
    rw [hr]
    exact List.indexOf_lt_length.mpr (hsup c hc)
  exact List.getD_append _ _ _ _ hidx

theorem zipWith_projectRow_extra (names dbCols : List String) (x : String)
    (hsup : ∀ c ∈ dbCols, c ∈ names) :
    ∀ (rows : List (List Val)) (vals : List Val),
      vals.length = rows.length → (∀ r ∈ rows, r.length = names.length) →
      List.zipWith (fun r v => projectRow (names ++ [x]) dbCols (r ++ [v]))
        rows vals = rows.map (projectRow names dbCols) := by
  intro rows
  induction rows with
  | nil => intro vals _ _; simp
  | cons r rs ih =>
    intro vals hlen hwf
    cases vals with
    | nil => simp at hlen
    | cons v vs =>
      simp only [List.zipWith_cons_cons, List.map_cons]
      rw [projectRow_extra_column names dbCols x r v hsup
        (hwf r (List.mem_cons_self r rs))]
      rw [ih vs (by simpa using hlen)
        (fun r' hr' => hwf r' (List.mem_cons_of_mem r hr'))]

/-- Claim C6: for a DataFrame whose columns are a superset of the live
table's columns, `insert_dataframe` reorders and projects the input rows to
exactly the live column order fetched from the catalog (the rows submitted
through the insert statements are precisely the per-row projections to the
live column list, in order), and an extra input column not present in the
table is silently dropped: appending such a column to the DataFrame leaves
the submitted value list unchanged. The live table must have a nonempty
column list: when the catalog returns no columns the source's
`if not db_columns` check classifies the table as not found (spec step 1)
and nothing is submitted. -/
theorem insert_projects_to_live_column_order
    (db : DB) (df : DataFrame) (t : String) (bs : Nat) (tbl : Table)
    (hlk : lookupTable db t = some tbl) (hcols : tbl.colNames ≠ [])
    (h1 : df.isEmpty = false) (h2 : t ≠ "") (hbs : bs ≠ 0)
    (hsup : ∀ c ∈ tbl.colNames, c ∈ df.colNames)
    (hwf : ∀ r ∈ df.rows, r.length = df.cols.length) :
    insertedRows (insert_dataframe db true (fun _ => false) df t bs).2.2.1
      = df.rows.map (projectRow df.colNames tbl.colNames)
    ∧ ∀ (x dt : String) (vals : List Val), x ∉ tbl.colNames →
        vals.length = df.rows.length →
        dataValues ⟨df.cols ++ [(x, dt)],
            List.zipWith (fun r v => r ++ [v]) df.rows vals⟩ tbl.colNames
          = dataValues df tbl.colNames := by
  have hmiss : (tbl.colNames.filter (fun c => decide (c ∉ df.colNames))) = [] := by
    rw [List.filter_eq_nil_iff]
    intro c hc
    simp [hsup c hc]
  constructor
  · unfold insert_dataframe
    rw [if_neg (show ¬(df.isEmpty = true) by simp [h1])]
    rw [if_neg h2]
    rw [if_neg (show ¬((!true) = true) by simp)]
    rw [hlk]
    dsimp only
    rw [if_neg (show ¬(tbl.colNames.isEmpty = true) by
      simpa [List.isEmpty_iff] using hcols)]
    rw [if_neg (show ¬((!(tbl.colNames.filter
        (fun c => decide (c ∉ df.colNames))).isEmpty) = true) by
      rw [hmiss]; simp)]
    rw [execPages_no_err]
    dsimp only
    rw [if_pos rfl]
    rw [insertedRows_pages]
    rw [chunksPages_flatten bs hbs]
    rfl
  · intro x dt vals hx hv
    unfold dataValues
    have hnames : (DataFrame.colNames ⟨df.cols ++ [(x, dt)],
        List.zipWith (fun r v => r ++ [v]) df.rows vals⟩)
        = df.colNames ++ [x] := by
      simp [DataFrame.colNames]
    dsimp only
    rw [hnames]
    rw [List.map_zipWith]
    exact zipWith_projectRow_extra df.colNames tbl.colNames x hsup df.rows
      vals (by rw [hv]) (fun r hr => by simp [DataFrame.colNames, hwf r hr])

theorem insert_projects_to_live_column_order_witness :
    insertedRows (insert_dataframe
        [("t", ⟨[("id", "INTEGER"), ("name", "TEXT")], []⟩)] true
        (fun _ => false)
        ⟨[("name", "object"), ("id", "int64"), ("extra", "int64")],
         [[10, 1, 99], [20, 2, 98]]⟩ "t" 1000).2.2.1
      = [[1, 10], [2, 20]] :=
  (insert_projects_to_live_column_order
      [("t", ⟨[("id", "INTEGER"), ("name", "TEXT")], []⟩)]
      ⟨[("name", "object"), ("id", "int64"), ("extra", "int64")],
       [[10, 1, 99], [20, 2, 98]]⟩ "t" 1000
      ⟨[("id", "INTEGER"), ("name", "TEXT")], []⟩ rfl (by decide) (by decide)
      (by decide) (by decide) (by decide) (by decide)).1

namespace ShortAnon

theorem b64CharDec_b64Char : ∀ n, n < 64 → b64CharDec (b64Char n) = n := by
  decide

theorem b64Char_map_roundtrip : ∀ l : List Nat, (∀ n ∈ l, n < 64) →
    (l.map b64Char).map b64CharDec = l := by
  intro l
  induction l with
  | nil => intro _; rfl
  | cons n t ih =>
    intro h
    simp only [List.map_cons]
    rw [b64CharDec_b64Char n (h n (List.mem_cons_self n t))]
    rw [ih (fun m hm => h m (List.mem_cons_of_mem n hm))]

theorem b64Sextets_bound : ∀ bs : List Nat, (∀ x ∈ bs, x < 256) →
    ∀ s ∈ b64Sextets bs, s < 64
  | [] => by intro _ s hs; simp [b64Sextets] at hs
  | [a] => by
    intro h s hs
    have ha : a < 256 := h a (by simp)
    simp [b64Sextets] at hs
    rcases hs with hs | hs <;> omega
  | [a, b] => by
    intro h s hs
    have ha : a < 256 := h a (by simp)
    have hb : b < 256 := h b (by simp)
    simp [b64Sextets] at hs
    rcases hs with hs | hs | hs <;> omega
  | a :: b :: c :: rest => by
    intro h s hs
    have ha : a < 256 := h a (by simp)
    have hb : b < 256 := h b (by simp)
    have hc : c < 256 := h c (by simp)
    have ih := b64Sextets_bound rest (fun x hx => h x (by simp [hx]))
    simp only [b64Sextets, List.mem_cons] at hs
    rcases hs with hs | hs | hs | hs | hs
    · omega
    · omega
    · omega
    · omega
    · exact ih s hs

theorem sextets_roundtrip : ∀ bs : List Nat, (∀ x ∈ bs, x < 256) →
    sextetsToBytes (b64Sextets bs) = bs
  | [] => fun _ => rfl
  | [a] => by
    intro h
    have ha : a < 256 := h a (by simp)
    simp [b64Sextets, sextetsToBytes]
    omega
  | [a, b] => by
    intro h
    have ha : a < 256 := h a (by simp)
    have hb : b < 256 := h b (by simp)
    simp [b64Sextets, sextetsToBytes]
    constructor <;> omega
  | a :: b :: c :: rest => by
    intro h
    have ha : a < 256 := h a (by simp)
    have hb : b < 256 := h b (by simp)
    have hc : c < 256 := h c (by simp)
    have ih := sextets_roundtrip rest (fun x hx => h x (by simp [hx]))
    simp only [b64Sextets, sextetsToBytes, List.cons.injEq]
    refine ⟨by omega, by omega, by omega, ih⟩

theorem b64u_roundtrip (bs : List Nat) (h : ∀ x ∈ bs, x < 256) :
    b64u_dec (b64u bs) = bs := by
  unfold b64u b64u_dec
  have htl : (String.mk ((b64Sextets bs).map b64Char)).toList
      = (b64Sextets bs).map b64Char := rfl
  rw [htl]
  rw [b64Char_map_roundtrip (b64Sextets bs) (b64Sextets_bound bs h)]
  exact sextets_roundtrip bs h

end ShortAnon

namespace ShortAnon

theorem xorBytes_cancel : ∀ a p : List Nat, a.length = p.length →
    xorBytes (xorBytes a p) p = a := by
  intro a
  induction a with
  | nil => intro p _; rfl
  | cons x xs ih =>
    intro p hl
    cases p with
    | nil => simp at hl
    | cons y ys =>
      simp only [xorBytes, List.zipWith_cons_cons]
      rw [Nat.xor_cancel_right]
      have := ih ys (by simpa using hl)
      simp only [xorBytes] at this
      rw [this]

theorem xorBytes_length (a b : List Nat) :
    (xorBytes a b).length = min a.length b.length := by
  simp [xorBytes]

theorem xorBytes_bound : ∀ a b : List Nat, (∀ x ∈ a, x < 256) →
    (∀ x ∈ b, x < 256) → ∀ x ∈ xorBytes a b, x < 256 := by
  intro a
  induction a with
  | nil => intro b _ _ x hx; simp [xorBytes] at hx
  | cons y ys ih =>
    intro b ha hb x hx
    cases b with
    | nil => simp [xorBytes] at hx
    | cons z zs =>
      simp only [xorBytes, List.zipWith_cons_cons, List.mem_cons] at hx
      rcases hx with hx | hx
      · subst hx
        have h1 : y < 2 ^ 8 := by
          have := ha y (List.mem_cons_self y ys)
          omega
        have h2 : z < 2 ^ 8 := by
          have := hb z (List.mem_cons_self z zs)
          omega
        have := Nat.xor_lt_two_pow h1 h2
        omega
      · exact ih zs (fun u hu => ha u (List.mem_cons_of_mem y hu))
          (fun u hu => hb u (List.mem_cons_of_mem z hu)) x hx

theorem cbcEncrypt_valid (encB decB : List Nat → List Nat)
    (hcipher : ∀ b : List Nat, b.length = 16 → (∀ x ∈ b, x < 256) →
      (encB b).length = 16 ∧ (∀ x ∈ encB b, x < 256) ∧ decB (encB b) = b) :
    ∀ (bs : List (List Nat)) (prev : List Nat),
      (∀ b ∈ bs, b.length = 16 ∧ ∀ x ∈ b, x < 256) →
      prev.length = 16 → (∀ x ∈ prev, x < 256) →
      ∀ c ∈ cbcEncrypt encB prev bs, c.length = 16 ∧ ∀ x ∈ c, x < 256 := by
  intro bs
  induction bs with
  | nil => intro prev _ _ _ c hc; simp [cbcEncrypt] at hc
  | cons b rest ih =>
    intro prev hbs hpl hpb c hc
    have hb := hbs b (List.mem_cons_self b rest)
    have hxl : (xorBytes b prev).length = 16 := by
      rw [xorBytes_length, hb.1, hpl]; simp
    have hxb : ∀ x ∈ xorBytes b prev, x < 256 :=
      xorBytes_bound b prev hb.2 hpb
    have henc := hcipher (xorBytes b prev) hxl hxb
    simp only [cbcEncrypt, List.mem_cons] at hc
    rcases hc with hc | hc
    · subst hc
      exact ⟨henc.1, henc.2.1⟩
    · exact ih (encB (xorBytes b prev))
        (fun u hu => hbs u (List.mem_cons_of_mem b hu)) henc.1 henc.2.1 c hc

theorem cbc_roundtrip (encB decB : List Nat → List Nat)
    (hcipher : ∀ b : List Nat, b.length = 16 → (∀ x ∈ b, x < 256) →
      (encB b).length = 16 ∧ (∀ x ∈ encB b, x < 256) ∧ decB (encB b) = b) :
    ∀ (bs : List (List Nat)) (prev : List Nat),
      (∀ b ∈ bs, b.length = 16 ∧ ∀ x ∈ b, x < 256) →
      prev.length = 16 → (∀ x ∈ prev, x < 256) →
      cbcDecrypt decB prev (cbcEncrypt encB prev bs) = bs := by
  intro bs
  induction bs with
  | nil => intro prev _ _ _; rfl
  | cons b rest ih =>
    intro prev hbs hpl hpb
    have hb := hbs b (List.mem_cons_self b rest)
    have hxl : (xorBytes b prev).length = 16 := by
      rw [xorBytes_length, hb.1, hpl]; simp
    have hxb : ∀ x ∈ xorBytes b prev, x < 256 :=
      xorBytes_bound b prev hb.2 hpb
    have henc := hcipher (xorBytes b prev) hxl hxb
    simp only [cbcEncrypt, cbcDecrypt]
    rw [henc.2.2]
    rw [xorBytes_cancel b prev (by rw [hb.1, hpl])]
    rw [ih (encB (xorBytes b prev))
      (fun u hu => hbs u (List.mem_cons_of_mem b hu)) henc.1 henc.2.1]

end ShortAnon

namespace ShortAnon

theorem chunks16_flatten (l : List Nat) : (chunks16 l).flatten = l := by
  rw [chunks16]
  by_cases h : l = []
  · simp [h]
  · rw [if_neg h]
    simp only [List.flatten_cons]
    rw [chunks16_flatten (l.drop 16)]
    exact List.take_append_drop 16 l
termination_by l.length
decreasing_by
  simp only [List.length_drop]
  cases l with
  | nil => simp_all
  | cons a t => simp; omega

theorem chunks16_length (l : List Nat) (hmod : l.length % 16 = 0) :
    ∀ b ∈ chunks16 l, b.length = 16 := by
  rw [chunks16]
  by_cases h : l = []
  · simp [h]
  · rw [if_neg h]
    have hpos : 0 < l.length := by
      cases l with
      | nil => simp_all
      | cons a t => simp
    have hge : 16 ≤ l.length := by omega
    intro b hb
    rcases List.mem_cons.mp hb with hb | hb
    · rw [hb, List.length_take]
      omega
    · exact chunks16_length (l.drop 16)
        (by rw [List.length_drop]; omega) b hb
termination_by l.length
decreasing_by
  simp only [List.length_drop]
  cases l with
  | nil => simp_all
  | cons a t => simp; omega

theorem chunks16_mem_mem (l : List Nat) :
    ∀ b ∈ chunks16 l, ∀ x ∈ b, x ∈ l := by
  rw [chunks16]
  by_cases h : l = []
  · simp [h]
  · rw [if_neg h]
    intro b hb x hx
    rcases List.mem_cons.mp hb with hb | hb
    · exact List.take_subset 16 l (hb ▸ hx)
    · exact List.drop_subset 16 l
        (chunks16_mem_mem (l.drop 16) b hb x hx)
termination_by l.length
decreasing_by
  simp only [List.length_drop]
  cases l with
  | nil => simp_all
  | cons a t => simp; omega

theorem chunks16_of_blocks : ∀ blocks : List (List Nat),
    (∀ b ∈ blocks, b.length = 16) → chunks16 blocks.flatten = blocks := by
  intro blocks
  induction blocks with
  | nil => intro _; simp [chunks16]
  | cons b bs ih =>
    intro h
    have hb : b.length = 16 := h b (List.mem_cons_self b bs)
    have hbne : b ≠ [] := by
      intro hc
      rw [hc] at hb
      simp at hb
    simp only [List.flatten_cons]
    rw [chunks16]
    rw [if_neg (by
      intro hc
      rcases List.append_eq_nil.mp hc with ⟨hc1, _⟩
      exact hbne hc1)]
    rw [List.take_left' hb, List.drop_left' hb]
    rw [ih (fun u hu => h u (List.mem_cons_of_mem b hu))]

theorem pad_length_mod (d : List Nat) : (pad d).length % 16 = 0 := by
  simp only [pad, List.length_append, List.length_replicate]
  omega

theorem pad_bytes (d : List Nat) (h : ∀ x ∈ d, x < 256) :
    ∀ x ∈ pad d, x < 256 := by
  intro x hx
  rcases List.mem_append.mp hx with hx | hx
  · exact h x hx
  · have := List.eq_of_mem_replicate hx
    omega

theorem unpad_append_replicate (d : List Nat) (k : Nat) (hk1 : 1 ≤ k)
    (hk16 : k ≤ 16) (hmod : (d.length + k) % 16 = 0) :
    unpad (d ++ List.replicate k k) = some d := by
  have hlen : (d ++ List.replicate k k).length = d.length + k := by simp
  have hlast : (d ++ List.replicate k k).getLast? = some k := by
    rw [List.getLast?_append, List.getLast?_replicate, if_neg (by omega)]
    rfl
  have hdrop : (d ++ List.replicate k k).drop
      ((d ++ List.replicate k k).length - k) = List.replicate k k := by
    rw [hlen]
    have he : d.length + k - k = d.length := by omega
    rw [he]
    exact List.drop_left' rfl
  have htake : (d ++ List.replicate k k).take
      ((d ++ List.replicate k k).length - k) = d := by
    rw [hlen]
    have he : d.length + k - k = d.length := by omega
    rw [he]
    exact List.take_left' rfl
  unfold unpad
  rw [if_neg (by rw [hlen]; omega)]
  rw [hlast]
  simp only []
  rw [if_neg (show ¬(k < 1 ∨ 16 < k) by omega)]
  rw [if_neg (not_not_intro hdrop)]
  rw [htake]

theorem unpad_pad (d : List Nat) : unpad (pad d) = some d := by
  unfold pad
  exact unpad_append_replicate d (16 - d.length % 16) (by omega) (by omega)
    (by omega)

end ShortAnon

namespace ShortAnon

/-- Claim C9: the anonymization utility is a reversible, stateless
encode/decode pair: for every plaintext byte sequence and every secret (the
secret enters only through the AES-128 cipher pycryptodome derives from it,
modelled as an arbitrary length-preserving block permutation with its
inverse, which the same secret yields on both sides), decoding the encoded
token with the same secret returns exactly the plaintext, for every IV the
encoder draws. -/
theorem anonymizer_roundtrip
    (encB decB : List Nat → List Nat)
    (hcipher : ∀ b : List Nat, b.length = 16 → (∀ x ∈ b, x < 256) →
      (encB b).length = 16 ∧ (∀ x ∈ encB b, x < 256) ∧ decB (encB b) = b)
    (iv pt : List Nat) (hivlen : iv.length = 16)
    (hivb : ∀ x ∈ iv, x < 256) (hptb : ∀ x ∈ pt, x < 256) :
    decode decB (encode encB iv pt) = some pt := by
  have hblocks_val : ∀ b ∈ chunks16 (pad pt),
      b.length = 16 ∧ ∀ x ∈ b, x < 256 := by
    intro b hb
    exact ⟨chunks16_length (pad pt) (pad_length_mod pt) b hb,
      fun x hx => pad_bytes pt hptb x (chunks16_mem_mem (pad pt) b hb x hx)⟩
  have hct_valid := cbcEncrypt_valid encB decB hcipher (chunks16 (pad pt))
    iv hblocks_val hivlen hivb
  have hct_bytes : ∀ x ∈ (cbcEncrypt encB iv (chunks16 (pad pt))).flatten,
      x < 256 := by
    intro x hx
    rcases List.mem_flatten.mp hx with ⟨c, hc, hxc⟩
    exact (hct_valid c hc).2 x hxc
  have hraw : b64u_dec (b64u (iv ++
      (cbcEncrypt encB iv (chunks16 (pad pt))).flatten))
      = iv ++ (cbcEncrypt encB iv (chunks16 (pad pt))).flatten := by
    apply b64u_roundtrip
    intro x hx
    rcases List.mem_append.mp hx with hx | hx
    · exact hivb x hx
    · exact hct_bytes x hx
  unfold decode encode
  dsimp only
  rw [hraw]
  rw [List.take_left' hivlen, List.drop_left' hivlen]
  rw [chunks16_of_blocks (cbcEncrypt encB iv (chunks16 (pad pt)))
    (fun c hc => (hct_valid c hc).1)]
  rw [cbc_roundtrip encB decB hcipher (chunks16 (pad pt)) iv hblocks_val
    hivlen hivb]
  rw [chunks16_flatten (pad pt)]
  exact unpad_pad pt

theorem anonymizer_roundtrip_witness :
    decode (fun b => b) (encode (fun b => b) (List.replicate 16 0)
      [104, 105]) = some [104, 105] :=
  anonymizer_roundtrip (fun b => b) (fun b => b)
    (fun _ hl hb => ⟨hl, hb, rfl⟩) (List.replicate 16 0) [104, 105]
    (by simp) (fun x hx => by have := List.eq_of_mem_replicate hx; omega)
    (by decide)

end ShortAnon
